import Mathlib

/-!
Shallow embedding of the Baseline_Agent roadmap pipeline
(`src/schemas.py`, `src/fallback.py`, `src/viz_graphviz.py`),
together with theorems settling the specification claims.

Python strings are modelled as Lean `String`, Python lists as `List`,
Python dicts built by comprehension as association lists where a later
binding shadows an earlier one.  Functions that can raise a Python
exception are modelled with `Except`/`Option`.
-/

namespace Baseline

/-- Node types from `schemas.NodeType`; `phase` is the legacy alias kept
for compatibility. -/
inductive NodeType where
  | stage_label
  | task
  | sub_content
  | method
  | phase
deriving DecidableEq, Repr

/-- Cluster record from `schemas.ClusterItem` (fields after validation). -/
structure ClusterItem where
  id : String
  label : String
deriving DecidableEq, Repr

/-- Node record from `schemas.NodeItem` (fields after validation). -/
structure NodeItem where
  id : String
  label : String
  type : NodeType
  parent_cluster : String
deriving DecidableEq, Repr

/-- Edge record from `schemas.EdgeItem`; `label` is optional with default
empty string. -/
structure EdgeItem where
  source : String
  target : String
  label : Option String := some ""
deriving DecidableEq, Repr

/-- Roadmap aggregate from `schemas.Roadmap` (fields after validation). -/
structure Roadmap where
  title : String
  clusters : List ClusterItem
  nodes : List NodeItem
  edges : List EdgeItem
deriving DecidableEq, Repr

/-- Python `str.strip()` on the character list: drop whitespace from both
ends. -/
def pyStripList (l : List Char) : List Char :=
  ((l.dropWhile Char.isWhitespace).reverse.dropWhile Char.isWhitespace).reverse

/-- Python `str.strip()`. -/
def pyStrip (s : String) : String :=
  String.mk (pyStripList s.data)

/-- Python `s[:n]` on a string: the first `n` characters. -/
def pyTake (s : String) (n : Nat) : String :=
  String.mk (s.data.take n)

/-- Test `not v or not v.strip()` used by the pydantic validators: the
string is empty or consists of whitespace only. -/
def pyBlank (s : String) : Bool :=
  pyStrip s = ""

/-- Constructor for `ClusterItem` running the `not_empty` validator on
`id` and `label` (`schemas.py` lines 26-30). -/
def mkClusterItem (id label : String) : Except String ClusterItem :=
  if pyBlank id then .error "cluster 字段不能为空"
  else if pyBlank label then .error "cluster 字段不能为空"
  else .ok ⟨pyStrip id, pyStrip label⟩

/-- Constructor for `NodeItem` running the field validators
(`schemas.py` lines 40-56). -/
def mkNodeItem (id label : String) (type : NodeType) (parent_cluster : String) :
    Except String NodeItem :=
  if pyBlank id then .error "Node id 不能为空"
  else if pyBlank label then .error "Node label 不能为空"
  else if pyBlank parent_cluster then .error "parent_cluster 不能为空"
  else .ok ⟨pyStrip id, pyStrip label, type, pyStrip parent_cluster⟩

/-- Constructor for `EdgeItem` running the `endpoint_not_empty` validator
(`schemas.py` lines 65-69). -/
def mkEdgeItem (source target : String) (label : Option String) :
    Except String EdgeItem :=
  if pyBlank source then .error "Edge 端点不能为空"
  else if pyBlank target then .error "Edge 端点不能为空"
  else .ok ⟨pyStrip source, pyStrip target, label⟩

/-- Constructor for `Roadmap` running the class-level validators in field
order (`schemas.py` lines 79-103): non-blank title, non-empty clusters
with unique ids, non-empty nodes; edges may be empty.  Node-id
uniqueness is NOT checked here: it is deferred to `ensureConsistency`. -/
def mkRoadmap (title : String) (clusters : List ClusterItem)
    (nodes : List NodeItem) (edges : List EdgeItem) : Except String Roadmap :=
  if pyBlank title then .error "title 不能为空"
  else if clusters = [] then .error "clusters 不能为空"
  else if ¬ (clusters.map fun c => c.id).Nodup then .error "clusters id 不唯一"
  else if nodes = [] then .error "nodes 不能为空"
  else .ok ⟨pyStrip title, clusters, nodes, edges⟩

/-- Cross-entity consistency check `Roadmap.ensure_consistency`
(`schemas.py` lines 105-117): node ids unique, every edge endpoint an
existing node id, every `parent_cluster` a declared cluster id.  A
`ValueError` raise is modelled as `Except.error` with the message. -/
def ensureConsistency (r : Roadmap) : Except String Unit :=
  let ids := r.nodes.map fun n => n.id
  if ids.Nodup then
    match r.edges.find? (fun e => !(ids.contains e.source && ids.contains e.target)) with
    | some e => .error ("边指向不存在的节点: " ++ e.source ++ " -> " ++ e.target)
    | none =>
      let clusterIds := r.clusters.map fun c => c.id
      match r.nodes.find? (fun n => !(clusterIds.contains n.parent_cluster)) with
      | some n => .error ("节点所属 cluster 未声明: " ++ n.parent_cluster)
      | none => .ok ()
  else .error "节点 id 不唯一"

/-! ### Fallback synthesizer (`src/fallback.py`) -/

/-- Base title used by `build_fallback_roadmap`. -/
def fallbackBaseTitle : String := "技术路线图（解析失败回退）"

/-- Title computed by `build_fallback_roadmap`: the base title, with a
truncated error fragment appended when `err` is non-empty (Python string
truthiness: only the empty string is falsy). -/
def fallbackTitle (err : String) : String :=
  if err = "" then fallbackBaseTitle
  else fallbackBaseTitle ++ " [Error: " ++ pyTake err 20 ++ "...]"

/-- Cluster dictionaries from `build_fallback_roadmap`. -/
def fallbackClusterData : List (String × String) :=
  [("phase1", "阶段一：研究准备"),
   ("phase2", "阶段二：核心研究"),
   ("phase3", "阶段三：应用验证")]

/-- Node dictionaries from `build_fallback_roadmap`:
(id, label, type, parent_cluster). -/
def fallbackNodeData : List (String × String × NodeType × String) :=
  [("s1", "研究准备", .stage_label, "phase1"),
   ("t1", "文献调研", .task, "phase1"),
   ("sub1", "输入：知网/WOS", .sub_content, "phase1"),
   ("m1", "文献分析法", .method, "phase1"),
   ("s2", "核心研究", .stage_label, "phase2"),
   ("t2", "构建模型", .task, "phase2"),
   ("sub2", "变量：GDP/R&D", .sub_content, "phase2"),
   ("m2", "回归分析", .method, "phase2"),
   ("s3", "应用验证", .stage_label, "phase3"),
   ("t3", "实证分析", .task, "phase3"),
   ("sub3", "指标：准确率", .sub_content, "phase3"),
   ("m3", "案例研究", .method, "phase3")]

/-- Edge dictionaries from `build_fallback_roadmap` (no label key, so the
pydantic default empty-string label applies). -/
def fallbackEdgeData : List (String × String) :=
  [("t1", "t2"), ("t2", "t3"),
   ("t1", "sub1"), ("t2", "sub2"), ("t3", "sub3"),
   ("sub1", "m1"), ("sub2", "m2"), ("sub3", "m3")]

/-- Embedding of `build_fallback_roadmap(raw_text, error)`: builds the
fixed 3-cluster/12-node/8-edge roadmap through the validating
constructors.  `rawText` is accepted and ignored, as in the source. -/
def buildFallbackRoadmap (rawText err : String) : Except String Roadmap := do
  let cs ← fallbackClusterData.mapM fun p => mkClusterItem p.1 p.2
  let ns ← fallbackNodeData.mapM fun q => mkNodeItem q.1 q.2.1 q.2.2.1 q.2.2.2
  let es ← fallbackEdgeData.mapM fun p => mkEdgeItem p.1 p.2 (some "")
  mkRoadmap (fallbackTitle err) cs ns es

/-! ### Helper lemmas about `pyStrip` -/

/-- Stripping is the identity on a character list that starts and ends
with non-whitespace characters. -/
theorem pyStripList_cons_concat (a : Char) (l : List Char) (b : Char)
    (ha : a.isWhitespace = false) (hb : b.isWhitespace = false) :
    pyStripList (a :: (l ++ [b])) = a :: (l ++ [b]) := by
  unfold pyStripList
  rw [List.dropWhile_cons]
  simp only [ha, Bool.false_eq_true, if_false]
  rw [List.reverse_cons, List.reverse_append, List.reverse_cons, List.reverse_nil,
    List.nil_append, List.singleton_append, List.cons_append, List.dropWhile_cons]
  simp only [hb, Bool.false_eq_true, if_false]
  rw [List.reverse_cons, List.reverse_append, List.reverse_reverse, List.reverse_cons,
    List.reverse_nil, List.nil_append, List.singleton_append]
  simp [List.append_assoc]

/-- Data of the fallback title for a non-empty error string. -/
theorem fallbackTitle_data (err : String) (h : ¬ err = "") :
    (fallbackTitle err).data
      = '技' :: (("术路线图（解析失败回退） [Error: ".data
          ++ (pyTake err 20).data ++ "...".data) ++ [']']) := by
  unfold fallbackTitle
  rw [if_neg h]
  simp only [String.data_append, fallbackBaseTitle]
  simp [List.append_assoc]

/-- Stripping the fallback title for a non-empty error leaves it
unchanged: it starts and ends with non-whitespace characters. -/
theorem pyStrip_fallbackTitle (err : String) (h : ¬ err = "") :
    pyStrip (fallbackTitle err) = fallbackTitle err := by
  have hd := fallbackTitle_data err h
  unfold pyStrip
  rw [hd, pyStripList_cons_concat '技' _ ']' (by decide) (by decide)]
  rw [← hd]

/-- The fallback title passes the `not_empty` title validator. -/
theorem fallbackTitle_not_blank (err : String) : pyBlank (fallbackTitle err) = false := by
  by_cases h : err = ""
  · subst h
    decide
  · have hd := fallbackTitle_data err h
    unfold pyBlank
    rw [pyStrip_fallbackTitle err h]
    simp only [decide_eq_false_iff_not]
    intro hcontra
    rw [hcontra] at hd
    simp at hd

/-- Cluster values as constructed by the fallback synthesizer. -/
def fallbackClusters : List ClusterItem :=
  [⟨"phase1", "阶段一：研究准备"⟩, ⟨"phase2", "阶段二：核心研究"⟩, ⟨"phase3", "阶段三：应用验证"⟩]

/-- Node values as constructed by the fallback synthesizer. -/
def fallbackNodes : List NodeItem :=
  [⟨"s1", "研究准备", .stage_label, "phase1"⟩,
   ⟨"t1", "文献调研", .task, "phase1"⟩,
   ⟨"sub1", "输入：知网/WOS", .sub_content, "phase1"⟩,
   ⟨"m1", "文献分析法", .method, "phase1"⟩,
   ⟨"s2", "核心研究", .stage_label, "phase2"⟩,
   ⟨"t2", "构建模型", .task, "phase2"⟩,
   ⟨"sub2", "变量：GDP/R&D", .sub_content, "phase2"⟩,
   ⟨"m2", "回归分析", .method, "phase2"⟩,
   ⟨"s3", "应用验证", .stage_label, "phase3"⟩,
   ⟨"t3", "实证分析", .task, "phase3"⟩,
   ⟨"sub3", "指标：准确率", .sub_content, "phase3"⟩,
   ⟨"m3", "案例研究", .method, "phase3"⟩]

/-- Edge values as constructed by the fallback synthesizer. -/
def fallbackEdges : List EdgeItem :=
  [⟨"t1", "t2", some ""⟩, ⟨"t2", "t3", some ""⟩,
   ⟨"t1", "sub1", some ""⟩, ⟨"t2", "sub2", some ""⟩, ⟨"t3", "sub3", some ""⟩,
   ⟨"sub1", "m1", some ""⟩, ⟨"sub2", "m2", some ""⟩, ⟨"sub3", "m3", some ""⟩]

/-- C2: for every input pair, `build_fallback_roadmap` returns a Roadmap
that passes `ensure_consistency`, has exactly 3 clusters, 12 nodes and
8 edges, with tasks chained t1→t2→t3, each task connected to its own
sub_content and each sub_content to its own method; when the error is
non-empty the title embeds the error truncated to at most 20
characters. -/
theorem fallback_roadmap_valid (rawText err : String) :
    ∃ r : Roadmap,
      buildFallbackRoadmap rawText err = .ok r ∧
      ensureConsistency r = .ok () ∧
      r.clusters.length = 3 ∧ r.nodes.length = 12 ∧ r.edges.length = 8 ∧
      (⟨"t1", "t2", some ""⟩ : EdgeItem) ∈ r.edges ∧
      (⟨"t2", "t3", some ""⟩ : EdgeItem) ∈ r.edges ∧
      (⟨"t1", "sub1", some ""⟩ : EdgeItem) ∈ r.edges ∧
      (⟨"t2", "sub2", some ""⟩ : EdgeItem) ∈ r.edges ∧
      (⟨"t3", "sub3", some ""⟩ : EdgeItem) ∈ r.edges ∧
      (⟨"sub1", "m1", some ""⟩ : EdgeItem) ∈ r.edges ∧
      (⟨"sub2", "m2", some ""⟩ : EdgeItem) ∈ r.edges ∧
      (⟨"sub3", "m3", some ""⟩ : EdgeItem) ∈ r.edges ∧
      (¬ err = "" →
        r.title = fallbackBaseTitle ++ " [Error: " ++ pyTake err 20 ++ "...]" ∧
        (pyTake err 20).data.length ≤ 20) := by
  have hb : buildFallbackRoadmap rawText err
      = mkRoadmap (fallbackTitle err) fallbackClusters fallbackNodes fallbackEdges := by
    rfl
  have hmk : mkRoadmap (fallbackTitle err) fallbackClusters fallbackNodes fallbackEdges
      = .ok ⟨pyStrip (fallbackTitle err), fallbackClusters, fallbackNodes, fallbackEdges⟩ := by
    unfold mkRoadmap
    simp only [fallbackTitle_not_blank]
    rfl
  refine ⟨⟨pyStrip (fallbackTitle err), fallbackClusters, fallbackNodes, fallbackEdges⟩,
    by rw [hb, hmk], by rfl, by rfl, by rfl, by rfl,
    show (⟨"t1", "t2", some ""⟩ : EdgeItem) ∈ fallbackEdges by decide,
    show (⟨"t2", "t3", some ""⟩ : EdgeItem) ∈ fallbackEdges by decide,
    show (⟨"t1", "sub1", some ""⟩ : EdgeItem) ∈ fallbackEdges by decide,
    show (⟨"t2", "sub2", some ""⟩ : EdgeItem) ∈ fallbackEdges by decide,
    show (⟨"t3", "sub3", some ""⟩ : EdgeItem) ∈ fallbackEdges by decide,
    show (⟨"sub1", "m1", some ""⟩ : EdgeItem) ∈ fallbackEdges by decide,
    show (⟨"sub2", "m2", some ""⟩ : EdgeItem) ∈ fallbackEdges by decide,
    show (⟨"sub3", "m3", some ""⟩ : EdgeItem) ∈ fallbackEdges by decide,
    ?_⟩
  intro h
  constructor
  · show pyStrip (fallbackTitle err) = _
    rw [pyStrip_fallbackTitle err h]
    unfold fallbackTitle
    rw [if_neg h]
  · simp only [pyTake, List.length_take]
    exact Nat.min_le_left _ _

/-- Witness for C2: the fallback roadmap built for the error
"timeout after 60s" (Scenario C of the spec). -/
theorem fallback_roadmap_valid_witness :
    ∃ r : Roadmap,
      buildFallbackRoadmap "" "timeout after 60s" = .ok r ∧
      ensureConsistency r = .ok () ∧
      r.clusters.length = 3 ∧ r.nodes.length = 12 ∧ r.edges.length = 8 ∧
      (⟨"t1", "t2", some ""⟩ : EdgeItem) ∈ r.edges ∧
      (⟨"t2", "t3", some ""⟩ : EdgeItem) ∈ r.edges ∧
      (⟨"t1", "sub1", some ""⟩ : EdgeItem) ∈ r.edges ∧
      (⟨"t2", "sub2", some ""⟩ : EdgeItem) ∈ r.edges ∧
      (⟨"t3", "sub3", some ""⟩ : EdgeItem) ∈ r.edges ∧
      (⟨"sub1", "m1", some ""⟩ : EdgeItem) ∈ r.edges ∧
      (⟨"sub2", "m2", some ""⟩ : EdgeItem) ∈ r.edges ∧
      (⟨"sub3", "m3", some ""⟩ : EdgeItem) ∈ r.edges ∧
      (¬ "timeout after 60s" = "" →
        r.title = fallbackBaseTitle ++ " [Error: " ++ pyTake "timeout after 60s" 20 ++ "...]" ∧
        (pyTake "timeout after 60s" 20).data.length ≤ 20) :=
  fallback_roadmap_valid "" "timeout after 60s"

/-! ### Consistency enforcement (claims C5, C10) -/

/-- C5: `ensure_consistency` rejects a roadmap containing a dangling edge
endpoint, rejects a roadmap containing a node whose `parent_cluster` is
undeclared, and returns without error on a roadmap satisfying all
cross-entity invariants. -/
theorem ensure_consistency_enforced (r : Roadmap) :
    ((∃ e ∈ r.edges, e.source ∉ r.nodes.map (fun n => n.id) ∨
        e.target ∉ r.nodes.map (fun n => n.id)) →
      ∃ msg, ensureConsistency r = .error msg) ∧
    ((∃ n ∈ r.nodes, n.parent_cluster ∉ r.clusters.map (fun c => c.id)) →
      ∃ msg, ensureConsistency r = .error msg) ∧
    (((r.nodes.map fun n => n.id).Nodup ∧
      (∀ e ∈ r.edges, e.source ∈ r.nodes.map (fun n => n.id) ∧
        e.target ∈ r.nodes.map (fun n => n.id)) ∧
      (∀ n ∈ r.nodes, n.parent_cluster ∈ r.clusters.map (fun c => c.id))) →
      ensureConsistency r = .ok ()) := by
  refine ⟨?_, ?_, ?_⟩
  · rintro ⟨e, he, hbad⟩
    unfold ensureConsistency
    by_cases hnodup : (r.nodes.map fun n => n.id).Nodup
    · simp only [if_pos hnodup]
      cases hfind : r.edges.find?
          (fun e => !((r.nodes.map fun n => n.id).contains e.source &&
            (r.nodes.map fun n => n.id).contains e.target)) with
      | some e' => exact ⟨_, rfl⟩
      | none =>
        exfalso
        have hne := List.find?_eq_none.mp hfind e he
        simp only [Bool.not_eq_eq_eq_not, Bool.not_true, Bool.and_eq_false_iff,
          List.contains, List.elem_eq_mem, decide_eq_false_iff_not, Bool.not_eq_true] at hne
        rcases hbad with hb | hb
        · exact absurd hne (by simp [hb])
        · exact absurd hne (by simp [hb])
    · simp only [if_neg hnodup]
      exact ⟨_, rfl⟩
  · rintro ⟨n, hn, hbad⟩
    unfold ensureConsistency
    by_cases hnodup : (r.nodes.map fun n => n.id).Nodup
    · simp only [if_pos hnodup]
      cases hfind : r.edges.find?
          (fun e => !((r.nodes.map fun n => n.id).contains e.source &&
            (r.nodes.map fun n => n.id).contains e.target)) with
      | some e' => exact ⟨_, rfl⟩
      | none =>
        simp only
        cases hfind2 : r.nodes.find?
            (fun n => !((r.clusters.map fun c => c.id).contains n.parent_cluster)) with
        | some n' => exact ⟨_, rfl⟩
        | none =>
          exfalso
          have hne := List.find?_eq_none.mp hfind2 n hn
          simp only [Bool.not_eq_eq_eq_not, Bool.not_true, List.contains, List.elem_eq_mem,
            decide_eq_false_iff_not] at hne
          exact hbad (not_not.mp hne)
    · simp only [if_neg hnodup]
      exact ⟨_, rfl⟩
  · rintro ⟨hnodup, hedges, hnodes⟩
    unfold ensureConsistency
    simp only [if_pos hnodup]
    have hfind : r.edges.find?
        (fun e => !((r.nodes.map fun n => n.id).contains e.source &&
          (r.nodes.map fun n => n.id).contains e.target)) = none := by
      rw [List.find?_eq_none]
      intro e he
      simp only [Bool.not_eq_eq_eq_not, Bool.not_true, Bool.and_eq_false_iff,
        List.contains, List.elem_eq_mem, decide_eq_false_iff_not, Bool.not_eq_true]
      simp [List.contains, List.elem_eq_mem, (hedges e he).1, (hedges e he).2]
    rw [hfind]
    have hfind2 : r.nodes.find?
        (fun n => !((r.clusters.map fun c => c.id).contains n.parent_cluster)) = none := by
      rw [List.find?_eq_none]
      intro n hn
      simp [List.contains, List.elem_eq_mem, hnodes n hn]
    rw [hfind2]

/-- Witness for C5 at concrete inputs: a dangling edge and an undeclared
cluster are rejected, and a fully consistent roadmap is accepted. -/
theorem ensure_consistency_enforced_witness :
    (∃ msg, ensureConsistency
      ⟨"t", [⟨"c1", "c"⟩], [⟨"a", "a", .task, "c1"⟩], [⟨"a", "ghost", some ""⟩]⟩
      = .error msg) ∧
    (∃ msg, ensureConsistency
      ⟨"t", [⟨"c1", "c"⟩], [⟨"a", "a", .task, "nowhere"⟩], []⟩
      = .error msg) ∧
    ensureConsistency
      ⟨"t", [⟨"c1", "c"⟩], [⟨"a", "a", .task, "c1"⟩, ⟨"b", "b", .method, "c1"⟩],
        [⟨"a", "b", some ""⟩]⟩ = .ok () := by
  refine ⟨?_, ?_, ?_⟩
  · exact (ensure_consistency_enforced _).1 ⟨⟨"a", "ghost", some ""⟩, by decide, by decide⟩
  · exact (ensure_consistency_enforced _).2.1 ⟨⟨"a", "a", .task, "nowhere"⟩, by decide, by decide⟩
  · exact (ensure_consistency_enforced _).2.2 ⟨by decide, by decide, by decide⟩

/-- C10: a roadmap whose node list contains two nodes with the same id
passes construction (the nodes validator only requires a non-empty
list); the duplicate is rejected only by `ensure_consistency`; duplicate
cluster ids are instead rejected already at construction time. -/
theorem duplicate_ids_validation (title : String) (cs : List ClusterItem)
    (ns : List NodeItem) (es : List EdgeItem)
    (htitle : pyBlank title = false) (hcs : ¬ cs = [])
    (hcsid : (cs.map fun c => c.id).Nodup) (hns : ¬ ns = []) :
    mkRoadmap title cs ns es = .ok ⟨pyStrip title, cs, ns, es⟩ ∧
    (¬ (ns.map fun n => n.id).Nodup →
      ensureConsistency ⟨pyStrip title, cs, ns, es⟩ = .error "节点 id 不唯一") ∧
    (∀ cs' : List ClusterItem, ¬ cs' = [] → ¬ (cs'.map fun c => c.id).Nodup →
      mkRoadmap title cs' ns es = .error "clusters id 不唯一") := by
  refine ⟨?_, ?_, ?_⟩
  · unfold mkRoadmap
    rw [if_neg (by simp [htitle]), if_neg hcs, if_neg (not_not_intro hcsid), if_neg hns]
  · intro hdup
    unfold ensureConsistency
    simp only [if_neg hdup]
  · intro cs' hcs' hdup
    unfold mkRoadmap
    rw [if_neg (by simp [htitle]), if_neg hcs', if_pos hdup]

/-- Witness for C10: construction succeeds on duplicate node ids, the
duplicate is then caught by `ensure_consistency`, and duplicate cluster
ids already fail construction. -/
theorem duplicate_ids_validation_witness :
    mkRoadmap "t" [⟨"c1", "c"⟩]
        [⟨"a", "x", .task, "c1"⟩, ⟨"a", "y", .task, "c1"⟩] []
      = .ok ⟨pyStrip "t", [⟨"c1", "c"⟩],
          [⟨"a", "x", .task, "c1"⟩, ⟨"a", "y", .task, "c1"⟩], []⟩ ∧
    ensureConsistency ⟨pyStrip "t", [⟨"c1", "c"⟩],
        [⟨"a", "x", .task, "c1"⟩, ⟨"a", "y", .task, "c1"⟩], []⟩
      = .error "节点 id 不唯一" ∧
    mkRoadmap "t" [⟨"d", "c"⟩, ⟨"d", "c"⟩]
        [⟨"a", "x", .task, "c1"⟩, ⟨"a", "y", .task, "c1"⟩] []
      = .error "clusters id 不唯一" := by
  have h := duplicate_ids_validation "t" [⟨"c1", "c"⟩]
    [⟨"a", "x", .task, "c1"⟩, ⟨"a", "y", .task, "c1"⟩] []
    (by decide) (by decide) (by decide) (by decide)
  exact ⟨h.1, h.2.1 (by decide), h.2.2 [⟨"d", "c"⟩, ⟨"d", "c"⟩] (by decide) (by decide)⟩

/-! ### Layout planner embedding (`src/viz_graphviz.py`)

The planner parts of `draw_roadmap` (stacked mode) and
`generate_beautiful_roadmap` (column mode) are embedded below.  Graphviz
attribute dictionaries are modelled by `GvEdge` records with optional
attributes; attributes the code never sets stay `none`.  Python dicts
built by comprehension are association lists in which a later binding
shadows an earlier one, hence the `reverse.find?` lookups. -/

/-- Node-id/position pairs mirroring the comprehension
`{n.id: idx for idx, n in enumerate(roadmap_data.nodes)}`. -/
def nodeIndexPairs (r : Roadmap) : List (String × Nat) :=
  r.nodes.enum.map fun p => (p.2.id, p.1)

/-- Lookup in a dict built from key/value pairs where a later binding
shadows an earlier one (Python `dict.get(k, d)`). -/
def dictGetNat (m : List (String × Nat)) (k : String) (d : Nat) : Nat :=
  match m.reverse.find? fun p => p.1 = k with
  | some p => p.2
  | none => d

/-- The `node_index.get(x.id, 0)` sort key of `draw_roadmap`. -/
def nodeIndex (r : Roadmap) (s : String) : Nat :=
  dictGetNat (nodeIndexPairs r) s 0

/-- The dict `nodes_by_id = {n.id: n for n in roadmap_data.nodes}`:
lookup returns the last node with the given id, if any. -/
def nodesById (r : Roadmap) (s : String) : Option NodeItem :=
  r.nodes.reverse.find? fun n => n.id = s

/-- The linear search `next((n for n in nodes if n["id"] == x), None)`
used by `generate_beautiful_roadmap`: first node with the given id. -/
def bLookup (r : Roadmap) (s : String) : Option NodeItem :=
  r.nodes.find? fun n => n.id = s

/-- The group `edges_by_source.get(s, [])`: edges with the given source,
in original order. -/
def edgesFromSource (r : Roadmap) (s : String) : List EdgeItem :=
  r.edges.filter fun e => e.source = s

/-- Python `sorted(lst, key=lambda x: node_index.get(x.id, 0))`: a stable
sort by original node position (`sorted` is a stable mergesort, as is
`List.mergeSort`). -/
def sortByIndex (r : Roadmap) (l : List NodeItem) : List NodeItem :=
  l.mergeSort fun a b => decide (nodeIndex r a.id ≤ nodeIndex r b.id)

/-- The test `n.type in (NodeType.phase, NodeType.stage_label)`. -/
def isStageType (t : NodeType) : Bool :=
  t = NodeType.phase || t = NodeType.stage_label

/-- Stage-column nodes of one cluster in `draw_roadmap`, sorted by
original input order. -/
def stageNodesOf (r : Roadmap) (cid : String) : List NodeItem :=
  sortByIndex r (r.nodes.filter fun n => n.parent_cluster = cid && isStageType n.type)

/-- The nodes placed inside one cluster box in `draw_roadmap`, sorted by
original input order. -/
def clusterInnerNodes (r : Roadmap) (cid : String) : List NodeItem :=
  sortByIndex r (r.nodes.filter fun n => n.parent_cluster = cid && !isStageType n.type)

/-- The `stage_order` list of `draw_roadmap`: stage node ids in rendering
order (clusters in original order, stage nodes per cluster sorted by
input order). -/
def stageOrder (r : Roadmap) : List String :=
  (r.clusters.map fun c => (stageNodesOf r c.id).map fun n => n.id).flatten

/-- The set of explicit (source, target) pairs,
`{(e.source, e.target) for e in roadmap_data.edges}`. -/
def existingPairs (r : Roadmap) : List (String × String) :=
  r.edges.map fun e => (e.source, e.target)

/-- Pairs `(l[i], l[i+1])` for `i in range(len(l) - 1)`. -/
def consecutivePairs (l : List String) : List (String × String) :=
  l.zip l.tail

/-- Task ids of one cluster in `draw_roadmap`, in planned (input) order. -/
def taskIdsInCluster (r : Roadmap) (cid : String) : List String :=
  ((clusterInnerNodes r cid).filter fun n => n.type = NodeType.task).map fun n => n.id

/-- Synthetic adjacent task edges of one cluster in `draw_roadmap`
(lines 145-152): each consecutive pair not already explicit. -/
def syntheticTaskEdges (r : Roadmap) (cid : String) : List (String × String) :=
  (consecutivePairs (taskIdsInCluster r cid)).filter fun p => !(existingPairs r).contains p

/-- Synthetic adjacent stage edges of `draw_roadmap` (lines 172-178):
each consecutive pair of `stage_order` not already explicit. -/
def syntheticStageEdges (r : Roadmap) : List (String × String) :=
  (consecutivePairs (stageOrder r)).filter fun p => !(existingPairs r).contains p

/-- Option-valued traversal: the Python loop that stops with an
exception as soon as one step raises. -/
def optTraverse (f : α → Option β) : List α → Option (List β)
  | [] => some []
  | a :: l =>
    match f a, optTraverse f l with
    | some b, some bs => some (b :: bs)
    | _, _ => none

/-- Recursive core of the list comprehension
`[lst[i : i + size] for i in range(0, len(lst), size)]`; meaningful only
for `size > 0` (its sole use is guarded by `pyChunks`). -/
def chunkGo (size : Nat) : List α → List (List α)
  | [] => []
  | a :: rest => (a :: rest).take size :: chunkGo size (rest.drop (size - 1))
termination_by l => l.length
decreasing_by
  simp only [List.length_drop, List.length_cons]
  omega

/-- The helper `_chunks(lst, size)` of `draw_roadmap`: batches of at most
`size` elements, with `[[]]` for an empty input (the `or [[]]` branch).
Python `range` raises `ValueError` on a zero step, modelled as `none`. -/
def pyChunks (l : List α) (size : Nat) : Option (List (List α)) :=
  if size = 0 then none
  else some (match chunkGo size l with
    | [] => [[]]
    | cs => cs)

/-- One rank-equivalence row emitted in stacked mode: an invisible
zero-size proxy anchored to the stage column, the task, and at most one
batch of methods. -/
structure MethodRow where
  proxyId : String
  taskId : String
  methodIds : List String
deriving DecidableEq, Repr

/-- Attributes of the proxy node of every method row:
`row.node(proxy_id, label="", shape="box", style="invis", width="0",
height="0", group="phase")`. -/
def proxyNodeAttrs : List (String × String) :=
  [("label", ""), ("shape", "box"), ("style", "invis"),
   ("width", "0"), ("height", "0"), ("group", "phase")]

/-- The `row_tasks` of a stage node `p`: targets of `p`'s outgoing edges
that resolve to task nodes. -/
def rowTasksOf (r : Roadmap) (p : NodeItem) : List NodeItem :=
  (edgesFromSource r p.id).filterMap fun e =>
    match nodesById r e.target with
    | some n => if n.type = NodeType.task then some n else none
    | none => none

/-- The `methods` of a task `t`: targets of `t`'s outgoing edges that
resolve to method nodes. -/
def methodsOfTask (r : Roadmap) (t : NodeItem) : List NodeItem :=
  (edgesFromSource r t.id).filterMap fun e =>
    match nodesById r e.target with
    | some n => if n.type = NodeType.method then some n else none
    | none => none

/-- The rows generated for one task under stage `p` with batch size `k`
(`draw_roadmap` lines 128-143). -/
def rowsForTask (p t : NodeItem) (methods : List NodeItem) (k : Nat) :
    Option (List MethodRow) :=
  (pyChunks methods k).map fun cs =>
    cs.enum.map fun q =>
      ⟨"proxy_" ++ p.id ++ "_" ++ t.id ++ "_" ++ toString q.1, t.id,
        q.2.map fun m => m.id⟩

/-- Rows generated for one stage node (skipped when it has no task
targets, so `_chunks` is then never invoked). -/
def rowsForStage (r : Roadmap) (p : NodeItem) (k : Nat) : Option (List MethodRow) :=
  (optTraverse (fun t => rowsForTask p t (methodsOfTask r t) k) (rowTasksOf r p)).map
    List.flatten

/-- Rows generated for one cluster. -/
def rowsForCluster (r : Roadmap) (cid : String) (k : Nat) : Option (List MethodRow) :=
  (optTraverse (fun p => rowsForStage r p k) (stageNodesOf r cid)).map List.flatten

/-- All rank-equivalence rows of stacked mode. -/
def allRows (r : Roadmap) (k : Nat) : Option (List MethodRow) :=
  (optTraverse (fun c => rowsForCluster r c.id k) r.clusters).map List.flatten

/-- A graphviz edge request: endpoints plus the attributes the code sets
explicitly; an attribute the code leaves unset is `none`. -/
structure GvEdge where
  src : String
  tgt : String
  label : Option String := none
  style : Option String := none
  arrowhead : Option String := none
  constr : Option String := none
  weight : Option String := none
deriving DecidableEq, Repr

/-- Whether an optional node has the given type (the Python pattern
`n and n.type == T`). -/
def typeIs (o : Option NodeItem) (t : NodeType) : Bool :=
  match o with
  | some n => n.type = t
  | none => false

/-- Edge styling of `draw_roadmap` (lines 154-170), applied to each
explicit edge. -/
def drawStyledEdge (r : Roadmap) (e : EdgeItem) : GvEdge :=
  let srcN := nodesById r e.source
  let tgtN := nodesById r e.target
  if typeIs srcN NodeType.method || typeIs tgtN NodeType.method then
    ⟨e.source, e.target, some (e.label.getD ""), some "invis", some "none", none, none⟩
  else if typeIs srcN NodeType.task && typeIs tgtN NodeType.sub_content then
    ⟨e.source, e.target, some (e.label.getD ""), some "dashed", some "none", none, none⟩
  else if typeIs srcN NodeType.sub_content || typeIs tgtN NodeType.sub_content then
    ⟨e.source, e.target, some (e.label.getD ""), some "invis", some "none", none, none⟩
  else
    ⟨e.source, e.target, some (e.label.getD ""), none, some "normal", none, none⟩

/-- All styled explicit edges of stacked mode. -/
def drawExplicitEdges (r : Roadmap) : List GvEdge :=
  r.edges.map fun e => drawStyledEdge r e

/-- Synthetic task edges of stacked mode as emitted edge requests
(`dot.edge(a, b, style="solid", arrowhead="normal")`). -/
def drawTaskSynthGv (r : Roadmap) : List GvEdge :=
  (r.clusters.map fun c =>
    (syntheticTaskEdges r c.id).map fun p =>
      (⟨p.1, p.2, none, some "solid", some "normal", none, none⟩ : GvEdge)).flatten

/-- Synthetic stage edges of stacked mode as emitted edge requests. -/
def drawStageSynthGv (r : Roadmap) : List GvEdge :=
  (syntheticStageEdges r).map fun p =>
    (⟨p.1, p.2, none, some "solid", some "normal", none, none⟩ : GvEdge)

/-- The complete edge request list emitted by `draw_roadmap`, in
emission order. -/
def drawRoadmapEdges (r : Roadmap) : List GvEdge :=
  drawTaskSynthGv r ++ drawExplicitEdges r ++ drawStageSynthGv r

/-- The layout-planning result of stacked mode: the rank rows and the
edge requests.  `none` models the `ValueError` raised by `range` inside
`_chunks` when the batch size is zero. -/
def drawRoadmapPlan (r : Roadmap) (k : Nat) :
    Option (List MethodRow × List GvEdge) :=
  (allRows r k).map fun rows => (rows, drawRoadmapEdges r)

/-! Column mode (`generate_beautiful_roadmap`). -/

/-- The per-cluster `current_nodes` of column mode, sorted by input
order. -/
def currentNodes (r : Roadmap) (cid : String) : List NodeItem :=
  sortByIndex r (r.nodes.filter fun n => n.parent_cluster = cid)

/-- Stage nodes of one cluster in column mode
(`n.get("type") in ("stage_label", "phase")`). -/
def bStageNodes (r : Roadmap) (cid : String) : List NodeItem :=
  (currentNodes r cid).filter fun n => isStageType n.type

/-- Task nodes of one cluster in column mode. -/
def bTaskNodes (r : Roadmap) (cid : String) : List NodeItem :=
  (currentNodes r cid).filter fun n => n.type = NodeType.task

/-- Sub-content nodes of one cluster in column mode. -/
def bSubNodes (r : Roadmap) (cid : String) : List NodeItem :=
  (currentNodes r cid).filter fun n => n.type = NodeType.sub_content

/-- Method nodes of one cluster in column mode. -/
def bMethodNodes (r : Roadmap) (cid : String) : List NodeItem :=
  (currentNodes r cid).filter fun n => n.type = NodeType.method

/-- The `stage_order` list of column mode. -/
def bStageOrder (r : Roadmap) : List String :=
  (r.clusters.map fun c => (bStageNodes r c.id).map fun n => n.id).flatten

/-- Synthetic adjacent task edges of one cluster in column mode
(lines 266-272). -/
def bTaskSynthEdges (r : Roadmap) (cid : String) : List (String × String) :=
  (consecutivePairs ((bTaskNodes r cid).map fun n => n.id)).filter fun p =>
    !(existingPairs r).contains p

/-- Edge styling of column mode (lines 292-381): attribute updates on a
base dict, first matching rule wins; when an endpoint does not resolve,
no style update happens. -/
def bStyledEdge (r : Roadmap) (e : EdgeItem) : GvEdge :=
  let srcN := bLookup r e.source
  let tgtN := bLookup r e.target
  match srcN, tgtN with
  | some sn, some tn =>
    if sn.type = NodeType.method || tn.type = NodeType.method then
      ⟨e.source, e.target, some (e.label.getD ""), some "invis", some "none", some "true", none⟩
    else if sn.type = NodeType.task && tn.type = NodeType.sub_content then
      ⟨e.source, e.target, some (e.label.getD ""), some "dashed", some "none", none, none⟩
    else if sn.type = NodeType.sub_content || tn.type = NodeType.sub_content then
      ⟨e.source, e.target, some (e.label.getD ""), some "invis", some "none", none, none⟩
    else if sn.type = NodeType.task && tn.type = NodeType.task then
      ⟨e.source, e.target, some (e.label.getD ""), some "solid", none, some "false", none⟩
    else
      ⟨e.source, e.target, some (e.label.getD ""), none, none, none, none⟩
  | _, _ => ⟨e.source, e.target, some (e.label.getD ""), none, none, none, none⟩

/-- All styled explicit edges of column mode. -/
def bExplicitEdges (r : Roadmap) : List GvEdge :=
  r.edges.map fun e => bStyledEdge r e

/-- The global stage rank group source `all_stages` (line 395): only
nodes whose type is literally `stage_label`. -/
def allStagesB (r : Roadmap) : List String :=
  (r.nodes.filter fun n => n.type = NodeType.stage_label).map fun n => n.id

/-- The global task rank group source `all_tasks`. -/
def allTasksB (r : Roadmap) : List String :=
  (r.nodes.filter fun n => n.type = NodeType.task).map fun n => n.id

/-- The global sub-content rank group source `all_subs`. -/
def allSubsB (r : Roadmap) : List String :=
  (r.nodes.filter fun n => n.type = NodeType.sub_content).map fun n => n.id

/-- The global method rank group source `all_methods`. -/
def allMethodsB (r : Roadmap) : List String :=
  (r.nodes.filter fun n => n.type = NodeType.method).map fun n => n.id

/-- The rank-equivalence groups declared by column mode (lines 398-418):
one `rank=same` subgraph per non-empty global column. -/
def bRankGroups (r : Roadmap) : List (String × List String) :=
  (if allStagesB r ≠ [] then [("rank_stage", allStagesB r)] else []) ++
  (if allTasksB r ≠ [] then [("rank_task", allTasksB r)] else []) ++
  (if allSubsB r ≠ [] then [("rank_sub", allSubsB r)] else []) ++
  (if allMethodsB r ≠ [] then [("rank_method", allMethodsB r)] else [])

/-- The representative chain of column mode (lines 423-428):
`[rep_stage, rep_task, rep_sub, rep_method]` filtered by Python
truthiness (a missing column yields `None`, an empty-string id is falsy
as well). -/
def bChain (r : Roadmap) : List String :=
  ([(allStagesB r).head?, (allTasksB r).head?, (allSubsB r).head?,
    (allMethodsB r).head?]).filterMap fun o =>
    match o with
    | some s => if s = "" then none else some s
    | none => none

/-- The invisible high-weight chain edges of column mode (lines
429-430). -/
def bChainEdges (r : Roadmap) : List GvEdge :=
  (consecutivePairs (bChain r)).map fun p =>
    (⟨p.1, p.2, none, some "invis", none, none, some "100"⟩ : GvEdge)

/-- Synthetic task edges of column mode as emitted edge requests. -/
def bTaskSynthGv (r : Roadmap) : List GvEdge :=
  (r.clusters.map fun c =>
    (bTaskSynthEdges r c.id).map fun p =>
      (⟨p.1, p.2, none, some "solid", some "normal", none, none⟩ : GvEdge)).flatten

/-- Synthetic stage edges of column mode (lines 432-437). -/
def bStageSynthGv (r : Roadmap) : List GvEdge :=
  ((consecutivePairs (bStageOrder r)).filter fun p =>
    !(existingPairs r).contains p).map fun p =>
    (⟨p.1, p.2, none, some "solid", some "normal", none, none⟩ : GvEdge)

/-- The complete edge request list emitted by column mode, in emission
order. -/
def beautifulEdges (r : Roadmap) : List GvEdge :=
  bTaskSynthGv r ++ bExplicitEdges r ++ bChainEdges r ++ bStageSynthGv r

/-- The rendered visibility/style of an edge request under graphviz
defaults: unset style renders solid, unset arrowhead renders a normal
arrowhead. -/
def renderedStyle (g : GvEdge) : String × String :=
  (g.style.getD "solid", g.arrowhead.getD "normal")

/-- Modelled from the spec: the edge visibility/style policy of §4.3 as
a pure function of the endpoint types, first matching rule wins.  This
definition follows the spec text and exists only to be compared with the
code-derived stylings above. -/
def specEdgeStyle (s t : NodeType) : String × String :=
  if s = NodeType.method ∨ t = NodeType.method then ("invis", "none")
  else if s = NodeType.task ∧ t = NodeType.sub_content then ("dashed", "none")
  else if s = NodeType.sub_content ∨ t = NodeType.sub_content then ("invis", "none")
  else ("solid", "normal")

/-! ### Claim C3: edge style policy -/

/-- C3: for an explicit edge whose endpoints resolve, the rendered
visibility/style in both layout modes is exactly the spec's pure
function of (source.type, target.type) with first-match-wins
precedence; being a function of the endpoint types, the decision is
identical on every rerun of the planner over the same roadmap. -/
theorem edge_style_policy (r : Roadmap) (e : EdgeItem) (sn tn : NodeItem)
    (hs : nodesById r e.source = some sn) (ht : nodesById r e.target = some tn)
    (hs' : bLookup r e.source = some sn) (ht' : bLookup r e.target = some tn) :
    renderedStyle (drawStyledEdge r e) = specEdgeStyle sn.type tn.type ∧
    renderedStyle (bStyledEdge r e) = specEdgeStyle sn.type tn.type := by
  constructor
  · unfold drawStyledEdge
    rw [hs, ht]
    cases hsn : sn.type <;> cases htn : tn.type <;>
      simp [typeIs, renderedStyle, specEdgeStyle, hsn, htn]
  · unfold bStyledEdge
    rw [hs', ht']
    cases hsn : sn.type <;> cases htn : tn.type <;>
      simp [renderedStyle, specEdgeStyle, hsn, htn]

/-- Witness for C3 on the fallback roadmap's task→sub_content edge. -/
theorem edge_style_policy_witness :
    renderedStyle (drawStyledEdge ⟨"T", fallbackClusters, fallbackNodes, fallbackEdges⟩
        ⟨"t1", "sub1", some ""⟩)
      = specEdgeStyle NodeType.task NodeType.sub_content ∧
    renderedStyle (bStyledEdge ⟨"T", fallbackClusters, fallbackNodes, fallbackEdges⟩
        ⟨"t1", "sub1", some ""⟩)
      = specEdgeStyle NodeType.task NodeType.sub_content := by
  exact edge_style_policy ⟨"T", fallbackClusters, fallbackNodes, fallbackEdges⟩
    ⟨"t1", "sub1", some ""⟩ ⟨"t1", "文献调研", .task, "phase1"⟩
    ⟨"sub1", "输入：知网/WOS", .sub_content, "phase1"⟩
    (by decide) (by decide) (by decide) (by decide)

/-! ### Claim C4: no duplicate synthetic edges -/

/-- C4: a synthetic ordering edge (emitted solid with a normal
arrowhead) is added for a pair (a, b) if and only if (a, b) is a
consecutive pair of the cluster's task order (resp. of the global stage
rendering order) and (a, b) is not already an explicit (source, target)
pair; in particular an explicit pair is never duplicated by a synthetic
one. -/
theorem no_duplicate_synthetic_edges (r : Roadmap) (cid : String) (a b : String) :
    ((a, b) ∈ syntheticTaskEdges r cid ↔
      ((a, b) ∈ consecutivePairs (taskIdsInCluster r cid) ∧
        (a, b) ∉ existingPairs r)) ∧
    ((a, b) ∈ syntheticStageEdges r ↔
      ((a, b) ∈ consecutivePairs (stageOrder r) ∧ (a, b) ∉ existingPairs r)) := by
  constructor
  · unfold syntheticTaskEdges
    rw [List.mem_filter]
    simp [List.contains, List.elem_eq_mem]
  · unfold syntheticStageEdges
    rw [List.mem_filter]
    simp [List.contains, List.elem_eq_mem]

/-! ### Claim C6: order preservation -/

/-- In a pair list with pairwise-distinct keys, `find?` on the key
returns exactly the stored pair. -/
theorem find?_key_eq {L : List (String × Nat)} (hn : (L.map Prod.fst).Nodup)
    {k : String} {v : Nat} (hm : (k, v) ∈ L) :
    (L.find? fun p => p.1 = k) = some (k, v) := by
  induction L with
  | nil => cases hm
  | cons x xs ih =>
    rw [List.find?_cons]
    by_cases hx : x.1 = k
    · have hxkv : x = (k, v) := by
        rcases List.mem_cons.mp hm with hend | htail
        · exact hend.symm
        · exfalso
          have hk : k ∈ xs.map Prod.fst := List.mem_map_of_mem Prod.fst htail
          have hnot := (List.nodup_cons.mp hn).1
          rw [hx] at hnot
          exact hnot hk
      simp [hx, hxkv]
    · have htail : (k, v) ∈ xs := by
        rcases List.mem_cons.mp hm with hend | htail
        · exfalso
          exact hx (by rw [← hend])
        · exact htail
      rw [show decide (x.1 = k) = false by simp [hx]]
      exact ih (List.nodup_cons.mp hn).2 htail

/-- Dict lookup with shadowing returns the stored value when the keys
are pairwise distinct. -/
theorem dictGetNat_of_mem {m : List (String × Nat)} (hn : (m.map Prod.fst).Nodup)
    {k : String} {v : Nat} (hm : (k, v) ∈ m) (d : Nat) : dictGetNat m k d = v := by
  unfold dictGetNat
  have hn' : (m.reverse.map Prod.fst).Nodup := by
    rw [List.map_reverse]
    exact List.nodup_reverse.mpr hn
  rw [find?_key_eq hn' (List.mem_reverse.mpr hm)]

/-- Keys of the node-index dict are the node ids in order. -/
theorem nodeIndexPairs_keys (r : Roadmap) :
    (nodeIndexPairs r).map Prod.fst = r.nodes.map fun n => n.id := by
  unfold nodeIndexPairs
  rw [List.map_map]
  have hcomp : (Prod.fst ∘ fun p : Nat × NodeItem => (p.2.id, p.1))
      = (fun n : NodeItem => n.id) ∘ Prod.snd := rfl
  rw [hcomp, ← List.map_map, List.enum_map_snd]

/-- With unique node ids, the sort key of a node is its position in the
roadmap's node sequence. -/
theorem nodeIndex_of_getElem (r : Roadmap) (h : (r.nodes.map fun n => n.id).Nodup)
    (i : Nat) (hi : i < r.nodes.length) : nodeIndex r r.nodes[i].id = i := by
  unfold nodeIndex
  have hkeys : ((nodeIndexPairs r).map Prod.fst).Nodup := by
    rw [nodeIndexPairs_keys]
    exact h
  have hmem : (r.nodes[i].id, i) ∈ nodeIndexPairs r := by
    unfold nodeIndexPairs
    have henum : (i, r.nodes[i]) ∈ r.nodes.enum := by
      rw [List.mem_enum_iff_getElem?]
      exact List.getElem?_eq_getElem hi
    exact List.mem_map_of_mem _ henum
  exact dictGetNat_of_mem hkeys hmem 0

/-- With unique node ids, the node sequence is strictly sorted by the
`node_index` key. -/
theorem nodes_pairwise_index (r : Roadmap) (h : (r.nodes.map fun n => n.id).Nodup) :
    r.nodes.Pairwise fun a b => nodeIndex r a.id < nodeIndex r b.id := by
  rw [List.pairwise_iff_getElem]
  intro i j hi hj hij
  rw [nodeIndex_of_getElem r h i hi, nodeIndex_of_getElem r h j hj]
  exact hij

/-- The planner's stable sort is the identity on any sublist of the node
sequence, provided node ids are unique. -/
theorem sortByIndex_sublist (r : Roadmap) (h : (r.nodes.map fun n => n.id).Nodup)
    {l : List NodeItem} (hl : l.Sublist r.nodes) : sortByIndex r l = l := by
  apply List.mergeSort_of_sorted
  have hp := (nodes_pairwise_index r h).sublist hl
  exact hp.imp fun hlt => decide_eq_true (Nat.le_of_lt hlt)

/-- C6: with unique node ids, every planned per-cluster grouping (stage
nodes and inner nodes in stacked mode, `current_nodes` and its per-type
projections in column mode) lists nodes exactly in their original
position order in the roadmap's node sequence — the stable sort on the
source order reduces to the order-preserving filter. -/
theorem order_preservation (r : Roadmap)
    (h : (r.nodes.map fun n => n.id).Nodup) (cid : String) :
    stageNodesOf r cid
      = r.nodes.filter (fun n => n.parent_cluster = cid && isStageType n.type) ∧
    clusterInnerNodes r cid
      = r.nodes.filter (fun n => n.parent_cluster = cid && !isStageType n.type) ∧
    currentNodes r cid = r.nodes.filter (fun n => n.parent_cluster = cid) ∧
    bTaskNodes r cid
      = (r.nodes.filter fun n => n.parent_cluster = cid).filter
          (fun n => n.type = NodeType.task) := by
  have hcur : currentNodes r cid = r.nodes.filter (fun n => n.parent_cluster = cid) :=
    sortByIndex_sublist r h (List.filter_sublist _)
  refine ⟨?_, ?_, hcur, ?_⟩
  · exact sortByIndex_sublist r h (List.filter_sublist _)
  · exact sortByIndex_sublist r h (List.filter_sublist _)
  · unfold bTaskNodes
    rw [hcur]

/-- Witness for C6 on the fallback roadmap's first cluster. -/
theorem order_preservation_witness :
    stageNodesOf ⟨"T", fallbackClusters, fallbackNodes, fallbackEdges⟩ "phase1"
      = fallbackNodes.filter
          (fun n => n.parent_cluster = "phase1" && isStageType n.type) ∧
    currentNodes ⟨"T", fallbackClusters, fallbackNodes, fallbackEdges⟩ "phase1"
      = fallbackNodes.filter (fun n => n.parent_cluster = "phase1") := by
  have h := order_preservation ⟨"T", fallbackClusters, fallbackNodes, fallbackEdges⟩
    (by decide) "phase1"
  exact ⟨h.1, h.2.2.1⟩

/-! ### Claim C7: row chunking bound -/

/-- Every batch produced by the chunking loop has at most `size`
elements. -/
theorem chunkGo_chunk_le (size : Nat) :
    ∀ (n : Nat) (l : List α), l.length = n → ∀ c ∈ chunkGo size l, c.length ≤ size := by
  intro n
  induction n using Nat.strong_induction_on with
  | _ n ih =>
    intro l hn c hc
    cases l with
    | nil => simp [chunkGo] at hc
    | cons a rest =>
      rw [chunkGo] at hc
      rcases List.mem_cons.mp hc with h1 | h2
      · rw [h1]
        simp [List.length_take]
      · refine ih (rest.drop (size - 1)).length ?_ _ rfl c h2
        simp only [List.length_drop]
        simp only [List.length_cons] at hn
        omega

/-- The chunking loop never returns an empty batch list on a non-empty
input. -/
theorem chunkGo_ne_nil (size : Nat) (a : α) (rest : List α) :
    chunkGo size (a :: rest) ≠ [] := by
  rw [chunkGo]
  exact List.cons_ne_nil _ _

/-- For a positive batch size, the number of batches is the ceiling of
the input length divided by the batch size. -/
theorem chunkGo_length (size : Nat) (hs : 0 < size) :
    ∀ (n : Nat) (l : List α), l.length = n → ¬ l = [] →
      (chunkGo size l).length = (l.length + size - 1) / size := by
  intro n
  induction n using Nat.strong_induction_on with
  | _ n ih =>
    intro l hn hne
    cases l with
    | nil => exact absurd rfl hne
    | cons a rest =>
      simp only [List.length_cons] at hn
      rw [chunkGo]
      by_cases hr : rest.drop (size - 1) = []
      · have hd := congrArg List.length hr
        simp only [List.length_drop, List.length_nil] at hd
        have hlen : rest.length ≤ size - 1 := by omega
        rw [hr]
        have hdiv : ((a :: rest).length + size - 1) / size = 1 := by
          simp only [List.length_cons]
          exact Nat.div_eq_of_lt_le (by omega) (by omega)
        rw [hdiv]
        rw [show chunkGo size ([] : List α) = [] from by rw [chunkGo]]
        rfl
      · have hlt : (rest.drop (size - 1)).length < n := by
          simp only [List.length_drop]
          omega
        have hrec := ih (rest.drop (size - 1)).length hlt (rest.drop (size - 1)) rfl hr
        simp only [List.length_drop] at hrec
        have hgt : size - 1 < rest.length := by
          by_contra hcon
          exact hr (List.drop_eq_nil_of_le (by omega))
        simp only [List.length_cons]
        rw [hrec]
        have harg : rest.length + 1 + size - 1
            = (rest.length - (size - 1) + size - 1) + size := by omega
        rw [harg, Nat.add_div_right _ hs]

/-- C7: in stacked mode with a positive batch size `k`, a task with `M`
outgoing method edges generates exactly `⌈M / k⌉` rank-equivalence rows
when `M > 0`, each holding at most `k` method ids together with the
task and one invisible zero-size proxy anchored to the stage column
(group `phase`); when `M = 0` the planner emits exactly one proxy-only
row rather than failing. -/
theorem row_chunking_bound (r : Roadmap) (p t : NodeItem) (k : Nat) (hk : 0 < k) :
    ∃ rows, rowsForTask p t (methodsOfTask r t) k = some rows ∧
      (∀ row ∈ rows, row.methodIds.length ≤ k ∧ row.taskId = t.id) ∧
      (¬ methodsOfTask r t = [] →
        rows.length = ((methodsOfTask r t).length + k - 1) / k) ∧
      (methodsOfTask r t = [] →
        rows.length = 1 ∧ ∀ row ∈ rows, row.methodIds = []) ∧
      ("group", "phase") ∈ proxyNodeAttrs ∧ ("style", "invis") ∈ proxyNodeAttrs ∧
      ("width", "0") ∈ proxyNodeAttrs := by
  have hkne : ¬ k = 0 := Nat.pos_iff_ne_zero.mp hk
  unfold rowsForTask pyChunks
  rw [if_neg hkne]
  cases hms : methodsOfTask r t with
  | nil =>
    have h0 : chunkGo k ([] : List NodeItem) = [] := by rw [chunkGo]
    refine ⟨_, rfl, ?_, ?_, ?_, by decide, by decide, by decide⟩
    · intro row hrow
      rw [h0] at hrow
      simp only [List.enum, List.enumFrom, List.map_cons, List.map_nil,
        List.mem_singleton] at hrow
      rw [hrow]
      exact ⟨Nat.zero_le _, rfl⟩
    · intro hcon
      exact absurd rfl hcon
    · intro _
      rw [h0]
      constructor
      · rfl
      · intro row hrow
        simp only [List.enum, List.enumFrom, List.map_cons, List.map_nil,
          List.mem_singleton] at hrow
        rw [hrow]
  | cons m ms =>
    obtain ⟨c, cs, hcg⟩ : ∃ c cs, chunkGo k (m :: ms) = c :: cs := by
      cases hcg2 : chunkGo k (m :: ms) with
      | nil => exact absurd hcg2 (chunkGo_ne_nil k m ms)
      | cons c cs => exact ⟨c, cs, rfl⟩
    rw [hcg]
    refine ⟨_, rfl, ?_, ?_, ?_, by decide, by decide, by decide⟩
    · intro row hrow
      rcases List.mem_map.mp hrow with ⟨q, hq, hqeq⟩
      have hchunk : q.2 ∈ c :: cs := List.snd_mem_of_mem_enum hq
      rw [← hcg] at hchunk
      have hlen := chunkGo_chunk_le k (m :: ms).length (m :: ms) rfl q.2 hchunk
      rw [← hqeq]
      constructor
      · simpa using hlen
      · rfl
    · intro _
      rw [List.length_map, List.enum_length]
      show (c :: cs).length = ((m :: ms).length + k - 1) / k
      rw [← hcg]
      exact chunkGo_length k hk (m :: ms).length (m :: ms) rfl (List.cons_ne_nil m ms)
    · intro hcon
      exact absurd hcon (List.cons_ne_nil m ms)

/-- Witness for C7 on the fallback roadmap: task `t1` has one method
edge target (`sub1` is not a method, so only methods count), batch size
3, giving one row. -/
theorem row_chunking_bound_witness :
    (0 < 3 ∧
      ∃ rows, rowsForTask ⟨"s1", "研究准备", .stage_label, "phase1"⟩
          ⟨"t1", "文献调研", .task, "phase1"⟩
          (methodsOfTask ⟨"T", fallbackClusters, fallbackNodes, fallbackEdges⟩
            ⟨"t1", "文献调研", .task, "phase1"⟩) 3 = some rows ∧
        (∀ row ∈ rows, row.methodIds.length ≤ 3 ∧ row.taskId = "t1") ∧
        (¬ methodsOfTask ⟨"T", fallbackClusters, fallbackNodes, fallbackEdges⟩
            ⟨"t1", "文献调研", .task, "phase1"⟩ = [] →
          rows.length
            = ((methodsOfTask ⟨"T", fallbackClusters, fallbackNodes, fallbackEdges⟩
                ⟨"t1", "文献调研", .task, "phase1"⟩).length + 3 - 1) / 3) ∧
        (methodsOfTask ⟨"T", fallbackClusters, fallbackNodes, fallbackEdges⟩
            ⟨"t1", "文献调研", .task, "phase1"⟩ = [] →
          rows.length = 1 ∧ ∀ row ∈ rows, row.methodIds = []) ∧
        ("group", "phase") ∈ proxyNodeAttrs ∧ ("style", "invis") ∈ proxyNodeAttrs ∧
        ("width", "0") ∈ proxyNodeAttrs) := by
  refine ⟨by decide, ?_⟩
  have h := row_chunking_bound ⟨"T", fallbackClusters, fallbackNodes, fallbackEdges⟩
    ⟨"s1", "研究准备", .stage_label, "phase1"⟩
    ⟨"t1", "文献调研", .task, "phase1"⟩ 3 (by decide)
  rcases h with ⟨rows, h1, h2, h3, h4, h5⟩
  exact ⟨rows, h1, fun row hrow => h2 row hrow, h3, h4, h5⟩

/-! ### Claim C1: column purity and the `phase` alias -/

/-- Roadmap with one legacy `phase` node and one `stage_label` node,
used to evaluate the column-mode rank grouping. -/
def c1Roadmap : Roadmap :=
  ⟨"t", [⟨"c1", "C"⟩],
    [⟨"p1", "P", .phase, "c1"⟩, ⟨"s1", "S", .stage_label, "c1"⟩,
     ⟨"t1", "T", .task, "c1"⟩], []⟩

unseal List.merge List.mergeSort in
/-- C1 evaluated at the failing input: in column mode the `phase` node
`p1` is drawn as a stage node outside the cluster (it is in the stage
rendering order, as in stacked mode), yet the global stage rank group
`rank_stage` contains only the `stage_label` node `s1` — the `phase`
node is missing from every rank group, contradicting the claim that
`phase` maps to the same stage rank group as `stage_label`. -/
theorem column_purity_phase_bug :
    "p1" ∈ bStageOrder c1Roadmap ∧
    "p1" ∈ stageOrder c1Roadmap ∧
    bRankGroups c1Roadmap = [("rank_stage", ["s1"]), ("rank_task", ["t1"])] ∧
    ¬ "p1" ∈ allStagesB c1Roadmap ∧
    ¬ "p1" ∈ allTasksB c1Roadmap ∧
    ¬ "p1" ∈ allSubsB c1Roadmap ∧
    ¬ "p1" ∈ allMethodsB c1Roadmap := by
  decide

/-! ### Claim C8: cross-column ordering chain -/

/-- Roadmap with all four columns populated, one explicit
task→sub_content edge. -/
def c8Roadmap : Roadmap :=
  ⟨"t", [⟨"c1", "C"⟩],
    [⟨"s1", "S", .stage_label, "c1"⟩, ⟨"t1", "T", .task, "c1"⟩,
     ⟨"u1", "U", .sub_content, "c1"⟩, ⟨"m1", "M", .method, "c1"⟩],
    [⟨"t1", "u1", some ""⟩]⟩

unseal List.merge List.mergeSort in
/-- C8 counterexample: the claim says both layout modes insert the
invisible high-weight representative chain, but on this valid roadmap
with all four columns non-empty the stacked-mode planner emits no
weighted edge at all (so no high-weight chain exists there), while
column mode emits the three chain edges. -/
theorem cross_column_chain_counterexample :
    ensureConsistency c8Roadmap = .ok () ∧
    ((drawRoadmapEdges c8Roadmap).all fun g => g.weight == none) = true ∧
    (bChainEdges c8Roadmap).length = 3 ∧
    ((bChainEdges c8Roadmap).all fun g =>
      g.weight == some "100" && g.style == some "invis") = true := by
  exact ⟨rfl, by decide, by decide, by decide⟩

/-- The stacked-mode styling never sets a weight. -/
theorem drawStyledEdge_weight (r : Roadmap) (e : EdgeItem) :
    (drawStyledEdge r e).weight = none := by
  unfold drawStyledEdge
  dsimp only
  split
  · rfl
  · split
    · rfl
    · split
      · rfl
      · rfl

/-- C8 amended: only the column-mode planner inserts the cross-column
chain — invisible weight-100 edges linking the first node of each
non-empty global column in the fixed order stage→task→sub_content→
method, skipping empty columns (with the stage column comprising only
`stage_label`-typed nodes) — while the stacked-mode planner emits no
weighted edge at all. -/
theorem cross_column_chain_amended (r : Roadmap)
    (h : ∀ n ∈ r.nodes, ¬ n.id = "") :
    bChain r = ([allStagesB r, allTasksB r, allSubsB r, allMethodsB r].filterMap
      List.head?) ∧
    (∀ g ∈ bChainEdges r, g.style = some "invis" ∧ g.weight = some "100") ∧
    (∀ g ∈ drawRoadmapEdges r, g.weight = none) := by
  refine ⟨?_, ?_, ?_⟩
  · unfold bChain
    rw [show [(allStagesB r).head?, (allTasksB r).head?, (allSubsB r).head?,
        (allMethodsB r).head?]
      = [allStagesB r, allTasksB r, allSubsB r, allMethodsB r].map List.head? from rfl]
    rw [List.filterMap_map]
    apply List.filterMap_congr
    intro l hl
    show (match l.head? with
      | some s => if s = "" then none else some s
      | none => none) = l.head?
    cases hs : l.head? with
    | none => rfl
    | some s =>
      have hsl : s ∈ l := List.mem_of_mem_head? (Option.mem_def.mpr hs)
      have hsne : ¬ s = "" := by
        have hcols : l = allStagesB r ∨ l = allTasksB r ∨ l = allSubsB r ∨
            l = allMethodsB r := by
          rcases List.mem_cons.mp hl with h1 | hl
          · exact Or.inl h1
          rcases List.mem_cons.mp hl with h2 | hl
          · exact Or.inr (Or.inl h2)
          rcases List.mem_cons.mp hl with h3 | hl
          · exact Or.inr (Or.inr (Or.inl h3))
          rcases List.mem_cons.mp hl with h4 | hl
          · exact Or.inr (Or.inr (Or.inr h4))
          · cases hl
        have hid : ∃ n ∈ r.nodes, s = n.id := by
          rcases hcols with hc | hc | hc | hc <;>
          · rw [hc] at hsl
            rcases List.mem_map.mp hsl with ⟨n, hn, hid⟩
            exact ⟨n, List.mem_of_mem_filter hn, hid.symm⟩
        rcases hid with ⟨n, hn, hid⟩
        rw [hid]
        exact h n hn
      simp [hsne]
  · intro g hg
    rcases List.mem_map.mp hg with ⟨q, _, hq⟩
    rw [← hq]
    exact ⟨rfl, rfl⟩
  · intro g hg
    unfold drawRoadmapEdges at hg
    rcases List.mem_append.mp hg with hg1 | hg2
    · rcases List.mem_append.mp hg1 with hgt | hge
      · unfold drawTaskSynthGv at hgt
        rcases List.mem_flatten.mp hgt with ⟨l, hl, hgl⟩
        rcases List.mem_map.mp hl with ⟨c, _, hc⟩
        rw [← hc] at hgl
        rcases List.mem_map.mp hgl with ⟨q, _, hq⟩
        rw [← hq]
      · unfold drawExplicitEdges at hge
        rcases List.mem_map.mp hge with ⟨e, _, he⟩
        rw [← he]
        exact drawStyledEdge_weight r e
    · unfold drawStageSynthGv at hg2
      rcases List.mem_map.mp hg2 with ⟨q, _, hq⟩
      rw [← hq]

/-- Witness for the amended C8 at the concrete four-column roadmap. -/
theorem cross_column_chain_amended_witness :
    bChain c8Roadmap
      = ([allStagesB c8Roadmap, allTasksB c8Roadmap, allSubsB c8Roadmap,
          allMethodsB c8Roadmap].filterMap List.head?) := by
  exact (cross_column_chain_amended c8Roadmap (by decide)).1

/-! ### Claim C9: planner totality -/

/-- Structurally valid roadmap with one stage→task edge and one
task→method edge, so that stacked-mode row chunking is exercised. -/
def c9Roadmap : Roadmap :=
  ⟨"t", [⟨"c1", "C"⟩],
    [⟨"s1", "S", .stage_label, "c1"⟩, ⟨"t1", "T", .task, "c1"⟩,
     ⟨"m1", "M", .method, "c1"⟩],
    [⟨"s1", "t1", some ""⟩, ⟨"t1", "m1", some ""⟩]⟩

unseal List.merge List.mergeSort in
/-- C9 counterexample: the claim says the layout planner never raises
for any configuration of its recognized options, but with the
recognized option `max_methods_per_row = 0` the stacked planner raises
a `ValueError` (Python `range` rejects a zero step inside `_chunks`)
even on this structurally valid roadmap. -/
theorem planner_totality_counterexample :
    ensureConsistency c9Roadmap = .ok () ∧ drawRoadmapPlan c9Roadmap 0 = none := by
  exact ⟨rfl, rfl⟩

/-- Option-valued traversal succeeds when every step succeeds. -/
theorem optTraverse_isSome {f : α → Option β} :
    ∀ {l : List α}, (∀ a ∈ l, (f a).isSome = true) → (optTraverse f l).isSome = true := by
  intro l
  induction l with
  | nil => intro _; rfl
  | cons a l ih =>
    intro h
    unfold optTraverse
    cases hfa : f a with
    | none =>
      have := h a (List.mem_cons_self a l)
      rw [hfa] at this
      cases this
    | some b =>
      cases htr : optTraverse f l with
      | none =>
        have := ih fun x hx => h x (List.mem_cons_of_mem a hx)
        rw [htr] at this
        cases this
      | some bs => rfl

/-- A single task's row generation succeeds for a positive batch
size. -/
theorem rowsForTask_isSome (p t : NodeItem) (ms : List NodeItem) (k : Nat)
    (hk : 0 < k) : (rowsForTask p t ms k).isSome = true := by
  unfold rowsForTask pyChunks
  rw [if_neg (Nat.pos_iff_ne_zero.mp hk)]
  rfl

/-- C9 amended: for every roadmap and every positive batch size the
stacked-mode layout planning phase succeeds (no step can raise); only
the zero batch size makes it fail.  Column mode is embedded as a total
function, so it never fails on any input. -/
theorem planner_totality_amended (r : Roadmap) (k : Nat) (hk : 0 < k) :
    (drawRoadmapPlan r k).isSome = true := by
  unfold drawRoadmapPlan allRows
  rw [Option.isSome_map', Option.isSome_map']
  apply optTraverse_isSome
  intro c _
  unfold rowsForCluster
  rw [Option.isSome_map']
  apply optTraverse_isSome
  intro p _
  unfold rowsForStage
  rw [Option.isSome_map']
  apply optTraverse_isSome
  intro t _
  exact rowsForTask_isSome p t (methodsOfTask r t) k hk

/-- Witness for the amended C9: the default batch size 3 plans the
concrete roadmap successfully. -/
theorem planner_totality_amended_witness :
    (drawRoadmapPlan c9Roadmap 3).isSome = true :=
  planner_totality_amended c9Roadmap 3 (by decide)

end Baseline
